import Mathlib

/-!
Shallow embedding of the Incarra agent contract
(src/programs/incarra-contract/src/lib.rs).

Modelling conventions:
* `u64` counters are `Nat`; `i64` timestamps are `Int`; `Pubkey` is an
  opaque `Nat`; Rust `String` is Lean `String` with `.length` standing for
  the character count (the inputs in all claims are ASCII, where Rust's
  byte length and the character count coincide).
* Each mutating instruction takes the current account record plus its
  inputs and returns `Except ErrorCode Unit × IncarraAgent`: the first
  component is the instruction's `Result<()>`, the second the state of the
  `&mut` account when the function returns.  Early `return err!` paths
  return the record exactly as mutated so far, which for this program is
  always the untouched input record.
* `Clock::get()` is an explicit `now : Int` parameter.
* Event emission is pure logging; the only event whose firing a claim
  mentions is `IncarraLevelUp`, so `interact_with_incarra` additionally
  returns a `Bool` that is `true` exactly when that event is emitted.
-/

structure CarvCredential where
  credential_type : String
  credential_data : String
  issuer : String
  issued_at : Int
  is_verified : Bool
deriving DecidableEq, Repr

structure CarvAchievement where
  name : String
  description : String
  score : Nat
  earned_at : Int
deriving DecidableEq, Repr

inductive InteractionType where
  | ResearchQuery
  | DataAnalysis
  | Conversation
  | ProblemSolving
deriving DecidableEq, Repr

structure IncarraAgent where
  owner : Nat
  agent_name : String
  personality : String
  created_at : Int
  last_interaction : Int
  carv_id : String
  carv_verified : Bool
  verification_signature : String
  reputation_score : Nat
  credentials : List CarvCredential
  achievements : List CarvAchievement
  level : Nat
  experience : Nat
  reputation : Nat
  total_interactions : Nat
  research_projects : Nat
  data_sources_connected : Nat
  ai_conversations : Nat
  knowledge_areas : List String
  is_active : Bool
deriving DecidableEq, Repr

inductive ErrorCode where
  | AgentNameTooLong
  | PersonalityTooLong
  | KnowledgeAreaTooLong
  | TooManyKnowledgeAreas
  | AgentInactive
  | InvalidCarvId
  | CarvIdNotVerified
  | InvalidVerificationProof
  | TooManyCredentials
  | TooManyAchievements
deriving DecidableEq, Repr

/-- Embeds `create_incarra_agent`: the account is freshly initialised, so the
function returns the new record (or the error raised before any write). -/
def create_incarra_agent (owner : Nat) (agent_name personality carv_id
    verification_signature : String) (now : Int) :
    Except ErrorCode IncarraAgent :=
  if carv_id.isEmpty || carv_id.length > 42 then
    Except.error ErrorCode.InvalidCarvId
  else
    Except.ok
      { owner := owner
        agent_name := agent_name
        personality := personality
        created_at := now
        last_interaction := now
        carv_id := carv_id
        carv_verified := false
        verification_signature := verification_signature
        reputation_score := 0
        credentials := []
        achievements := []
        level := 1
        experience := 0
        reputation := 0
        total_interactions := 0
        research_projects := 0
        data_sources_connected := 0
        ai_conversations := 0
        knowledge_areas := []
        is_active := true }

/-- Embeds `verify_carv_id`. -/
def verify_carv_id (r : IncarraAgent) (verification_proof : String) :
    Except ErrorCode Unit × IncarraAgent :=
  if verification_proof.length < 10 then
    (Except.error ErrorCode.InvalidVerificationProof, r)
  else
    (Except.ok (), { r with
      carv_verified := true
      reputation := r.reputation + 50 })

/-- Embeds `add_credential`. -/
def add_credential (r : IncarraAgent) (credential_type credential_data
    issuer : String) (now : Int) : Except ErrorCode Unit × IncarraAgent :=
  if !r.carv_verified then
    (Except.error ErrorCode.CarvIdNotVerified, r)
  else if r.credentials.length ≥ 10 then
    (Except.error ErrorCode.TooManyCredentials, r)
  else
    (Except.ok (), { r with
      credentials := r.credentials ++
        [{ credential_type := credential_type
           credential_data := credential_data
           issuer := issuer
           issued_at := now
           is_verified := false }]
      reputation_score := r.reputation_score + 10 })

/-- Embeds `add_achievement`. -/
def add_achievement (r : IncarraAgent) (achievement_name
    achievement_description : String) (achievement_score : Nat) (now : Int) :
    Except ErrorCode Unit × IncarraAgent :=
  if r.achievements.length ≥ 20 then
    (Except.error ErrorCode.TooManyAchievements, r)
  else
    (Except.ok (), { r with
      achievements := r.achievements ++
        [{ name := achievement_name
           description := achievement_description
           score := achievement_score
           earned_at := now }]
      reputation_score := r.reputation_score + achievement_score })

/-- Embeds `interact_with_incarra`.  The second component of the result is
`true` exactly when the `IncarraLevelUp` event is emitted. -/
def interact_with_incarra (r : IncarraAgent)
    (interaction_type : InteractionType) (experience_gained : Nat)
    (context_data : String) (now : Int) : IncarraAgent × Bool :=
  let r := { r with
    total_interactions := r.total_interactions + 1
    experience := r.experience + experience_gained
    last_interaction := now }
  let base_reputation : Nat :=
    match interaction_type with
    | InteractionType.ResearchQuery => 3
    | InteractionType.DataAnalysis => 5
    | InteractionType.Conversation => 1
    | InteractionType.ProblemSolving => 4
  let reputation_gain :=
    if r.carv_verified then base_reputation + 1 else base_reputation
  let r := { r with
    reputation := r.reputation + reputation_gain
    reputation_score := r.reputation_score + reputation_gain }
  let r :=
    match interaction_type with
    | InteractionType.ResearchQuery =>
        { r with research_projects := r.research_projects + 1 }
    | InteractionType.DataAnalysis =>
        { r with data_sources_connected := r.data_sources_connected + 1 }
    | InteractionType.Conversation =>
        { r with ai_conversations := r.ai_conversations + 1 }
    | InteractionType.ProblemSolving =>
        { r with research_projects := r.research_projects + 1 }
  let new_level := r.experience / 100 + 1
  if new_level > r.level then
    ({ r with level := new_level }, true)
  else
    (r, false)

/-- Embeds `add_knowledge_area` (`Vec::contains` on `String` is list
membership). -/
def add_knowledge_area (r : IncarraAgent) (knowledge_area : String) :
    Except ErrorCode Unit × IncarraAgent :=
  if knowledge_area.length > 30 then
    (Except.error ErrorCode.KnowledgeAreaTooLong, r)
  else if r.knowledge_areas.length ≥ 20 then
    (Except.error ErrorCode.TooManyKnowledgeAreas, r)
  else if knowledge_area ∉ r.knowledge_areas then
    (Except.ok (), { r with
      knowledge_areas := r.knowledge_areas ++ [knowledge_area]
      reputation := r.reputation + 2
      reputation_score := r.reputation_score + 2 })
  else
    (Except.ok (), r)

/-- Embeds `update_personality`. -/
def update_personality (r : IncarraAgent) (new_personality : String) :
    Except ErrorCode Unit × IncarraAgent :=
  if new_personality.length > 200 then
    (Except.error ErrorCode.PersonalityTooLong, r)
  else
    (Except.ok (), { r with personality := new_personality })

/-- Embeds `deactivate_incarra`. -/
def deactivate_incarra (r : IncarraAgent) :
    Except ErrorCode Unit × IncarraAgent :=
  (Except.ok (), { r with is_active := false })

/-- One invocation of a mutating instruction on an existing record, with its
inputs. -/
inductive Op where
  | verifyCarvId (verification_proof : String)
  | addCredential (credential_type credential_data issuer : String) (now : Int)
  | addAchievement (achievement_name achievement_description : String)
      (achievement_score : Nat) (now : Int)
  | interact (interaction_type : InteractionType) (experience_gained : Nat)
      (context_data : String) (now : Int)
  | addKnowledgeArea (knowledge_area : String)
  | updatePersonality (new_personality : String)
  | deactivate
deriving DecidableEq, Repr

/-- Dispatches one instruction; `interact_with_incarra` always returns `Ok`. -/
def applyOp (o : Op) (r : IncarraAgent) : Except ErrorCode Unit × IncarraAgent :=
  match o with
  | Op.verifyCarvId p => verify_carv_id r p
  | Op.addCredential ct cd iss now => add_credential r ct cd iss now
  | Op.addAchievement n d s now => add_achievement r n d s now
  | Op.interact ty g cdata now =>
      (Except.ok (), (interact_with_incarra r ty g cdata now).1)
  | Op.addKnowledgeArea ka => add_knowledge_area r ka
  | Op.updatePersonality p => update_personality r p
  | Op.deactivate => deactivate_incarra r

/-- Recognises the interaction instruction. -/
def Op.isInteract : Op → Bool
  | Op.interact _ _ _ _ => true
  | _ => false

/-- Applies a sequence of instructions in order, keeping the record each
instruction leaves behind. -/
def applyOps (ops : List Op) (r : IncarraAgent) : IncarraAgent :=
  ops.foldl (fun s o => (applyOp o s).2) r

/-- A record is reachable when `create_incarra_agent` produced it and any
sequence of successful instructions transformed it. -/
inductive Reachable : IncarraAgent → Prop where
  | created (owner : Nat) (agent_name personality carv_id
      verification_signature : String) (now : Int) (r : IncarraAgent) :
      create_incarra_agent owner agent_name personality carv_id
        verification_signature now = Except.ok r → Reachable r
  | stepped (r : IncarraAgent) (o : Op) (r' : IncarraAgent) :
      Reachable r → applyOp o r = (Except.ok (), r') → Reachable r'

/-! Concrete records used by witnesses, counterexamples and code-bug
evaluations. -/

/-- The record `create_incarra_agent 0 "nova" "atlas" "0xabc" "sig" 0`
produces. -/
def freshRecord : IncarraAgent :=
  { owner := 0
    agent_name := "nova"
    personality := "atlas"
    created_at := 0
    last_interaction := 0
    carv_id := "0xabc"
    carv_verified := false
    verification_signature := "sig"
    reputation_score := 0
    credentials := []
    achievements := []
    level := 1
    experience := 0
    reputation := 0
    total_interactions := 0
    research_projects := 0
    data_sources_connected := 0
    ai_conversations := 0
    knowledge_areas := []
    is_active := true }

/-- A record whose identity has already been verified once (the state after
`verify_carv_id freshRecord "proof-okay"`). -/
def verifiedRecord : IncarraAgent :=
  { freshRecord with carv_verified := true, reputation := 50 }

/-- A verified record already holding 10 credentials. -/
def fullCredsRecord : IncarraAgent :=
  { verifiedRecord with
    credentials := List.replicate 10
      { credential_type := "Skill"
        credential_data := "d"
        issuer := "carv"
        issued_at := 0
        is_verified := false }
    reputation_score := 100 }

/-- A record whose `knowledge_areas` list already holds 20 distinct entries. -/
def fullAreasRecord : IncarraAgent :=
  { freshRecord with
    knowledge_areas :=
      ["k01", "k02", "k03", "k04", "k05", "k06", "k07", "k08", "k09", "k10",
       "k11", "k12", "k13", "k14", "k15", "k16", "k17", "k18", "k19", "k20"]
    reputation := 40
    reputation_score := 40 }

/-- A 51-character agent name. -/
def name51 : String := String.mk (List.replicate 51 'a')

/-- A record with one knowledge area (the state after
`add_knowledge_area freshRecord "defi"`). -/
def areasRecord : IncarraAgent :=
  { freshRecord with
    knowledge_areas := ["defi"]
    reputation := 2
    reputation_score := 2 }

theorem create_freshRecord :
    create_incarra_agent 0 "nova" "atlas" "0xabc" "sig" 0 =
      Except.ok freshRecord := by rfl

theorem verify_freshRecord :
    verify_carv_id freshRecord "proof-okay" = (Except.ok (), verifiedRecord) := by
  rfl

/-- C3: evaluating `verify_carv_id` on an already-verified record with a
long-enough proof: the call is neither rejected nor a no-op — it succeeds
and grants the +50 reputation bonus a second time (reputation 50 → 100). -/
theorem verifyCarvId_regrants_bonus :
    verifiedRecord.carv_verified = true ∧
    verify_carv_id verifiedRecord "proof-okay" =
      (Except.ok (),
        { verifiedRecord with reputation := verifiedRecord.reputation + 50 }) ∧
    ((verify_carv_id verifiedRecord "proof-okay").2).reputation = 100 :=
  ⟨rfl, rfl, rfl⟩

/-- C4: evaluating `create_incarra_agent` on a 51-character agent name: the
call succeeds and stores the over-long name instead of failing with
`AgentNameTooLong` (an error the contract declares but never raises). -/
theorem create_accepts_overlong_name :
    name51.length = 51 ∧
    create_incarra_agent 0 name51 "atlas" "0xabc" "sig" 0 =
      Except.ok { freshRecord with agent_name := name51 } :=
  ⟨by decide, by rfl⟩

/-- C5: `add_credential` on an unverified record fails with
`CarvIdNotVerified` (distinct from the capacity error) and leaves the record
unchanged; on a verified record with fewer than 10 credentials it appends the
credential and adds exactly 10 to `reputation_score`; on a verified record
already holding 10 credentials it fails with `TooManyCredentials`. -/
theorem addCredential_gating (r : IncarraAgent) (ct cd iss : String)
    (now : Int) :
    (r.carv_verified = false →
      add_credential r ct cd iss now =
        (Except.error ErrorCode.CarvIdNotVerified, r)) ∧
    (r.carv_verified = true → r.credentials.length < 10 →
      add_credential r ct cd iss now =
        (Except.ok (), { r with
          credentials := r.credentials ++
            [{ credential_type := ct
               credential_data := cd
               issuer := iss
               issued_at := now
               is_verified := false }]
          reputation_score := r.reputation_score + 10 })) ∧
    (r.carv_verified = true → r.credentials.length = 10 →
      add_credential r ct cd iss now =
        (Except.error ErrorCode.TooManyCredentials, r)) := by
  refine ⟨fun hv => ?_, fun hv hc => ?_, fun hv hc => ?_⟩
  · rw [add_credential, if_pos (by simp [hv])]
  · rw [add_credential, if_neg (by simp [hv]), if_neg (by omega)]
  · rw [add_credential, if_neg (by simp [hv]), if_pos (by omega)]

/-- C5 witness: the three branches of `addCredential_gating` at concrete
records. -/
theorem addCredential_gating_witness :
    add_credential freshRecord "Skill" "d" "carv" 0 =
      (Except.error ErrorCode.CarvIdNotVerified, freshRecord) ∧
    add_credential verifiedRecord "Skill" "d" "carv" 0 =
      (Except.ok (), { verifiedRecord with
        credentials := verifiedRecord.credentials ++
          [{ credential_type := "Skill"
             credential_data := "d"
             issuer := "carv"
             issued_at := 0
             is_verified := false }]
        reputation_score := verifiedRecord.reputation_score + 10 }) ∧
    add_credential fullCredsRecord "Skill" "d" "carv" 0 =
      (Except.error ErrorCode.TooManyCredentials, fullCredsRecord) :=
  ⟨(addCredential_gating freshRecord "Skill" "d" "carv" 0).1 rfl,
   (addCredential_gating verifiedRecord "Skill" "d" "carv" 0).2.1 rfl
     (by decide),
   (addCredential_gating fullCredsRecord "Skill" "d" "carv" 0).2.2 rfl
     (by decide)⟩

/-- C6 counterexample: on a record whose `knowledge_areas` already holds 20
entries, adding a duplicate area of at most 30 characters is not the claimed
silent success — the capacity check runs before the duplicate check, so the
call fails with `TooManyKnowledgeAreas`. -/
theorem addKnowledgeArea_duplicate_full_list_errors :
    ("k01" : String).length ≤ 30 ∧
    "k01" ∈ fullAreasRecord.knowledge_areas ∧
    fullAreasRecord.knowledge_areas.length = 20 ∧
    add_knowledge_area fullAreasRecord "k01" =
      (Except.error ErrorCode.TooManyKnowledgeAreas, fullAreasRecord) :=
  ⟨by decide, by decide, by decide, by rfl⟩

/-- C6 (amended): on a record with fewer than 20 knowledge areas, adding an
already-present area of at most 30 characters returns success and leaves the
record completely unchanged. -/
theorem addKnowledgeArea_duplicate_noop (r : IncarraAgent) (ka : String)
    (hlen : ka.length ≤ 30) (hcap : r.knowledge_areas.length < 20)
    (hmem : ka ∈ r.knowledge_areas) :
    add_knowledge_area r ka = (Except.ok (), r) := by
  rw [add_knowledge_area, if_neg (by omega), if_neg (by omega),
    if_neg (by simp [hmem])]

/-- C6 witness: adding the duplicate "defi" to a one-entry list is a no-op
success. -/
theorem addKnowledgeArea_duplicate_noop_witness :
    ("defi" : String).length ≤ 30 ∧
    areasRecord.knowledge_areas.length < 20 ∧
    "defi" ∈ areasRecord.knowledge_areas ∧
    add_knowledge_area areasRecord "defi" = (Except.ok (), areasRecord) :=
  ⟨by decide, by decide, by decide,
    addKnowledgeArea_duplicate_noop areasRecord "defi" (by decide) (by decide)
      (by decide)⟩

/-- C10: on a record with fewer than 20 knowledge areas, adding a new area of
at most 30 characters appends it and increases both `reputation` and
`reputation_score` by exactly 2. -/
theorem addKnowledgeArea_new_area_gains_reputation (r : IncarraAgent)
    (ka : String) (hlen : ka.length ≤ 30)
    (hcap : r.knowledge_areas.length < 20) (hnew : ka ∉ r.knowledge_areas) :
    add_knowledge_area r ka =
      (Except.ok (), { r with
        knowledge_areas := r.knowledge_areas ++ [ka]
        reputation := r.reputation + 2
        reputation_score := r.reputation_score + 2 }) := by
  rw [add_knowledge_area, if_neg (by omega), if_neg (by omega), if_pos hnew]

/-- C10 witness: adding "defi" to the fresh record. -/
theorem addKnowledgeArea_new_area_gains_reputation_witness :
    ("defi" : String).length ≤ 30 ∧
    freshRecord.knowledge_areas.length < 20 ∧
    "defi" ∉ freshRecord.knowledge_areas ∧
    add_knowledge_area freshRecord "defi" =
      (Except.ok (), { freshRecord with
        knowledge_areas := freshRecord.knowledge_areas ++ ["defi"]
        reputation := freshRecord.reputation + 2
        reputation_score := freshRecord.reputation_score + 2 }) :=
  ⟨by decide, by decide, by decide,
    addKnowledgeArea_new_area_gains_reputation freshRecord "defi" (by decide)
      (by decide) (by decide)⟩

theorem interact_fields (r : IncarraAgent) (ty : InteractionType) (g : Nat)
    (cdata : String) (now : Int) :
    ((interact_with_incarra r ty g cdata now).1).experience = r.experience + g ∧
    ((interact_with_incarra r ty g cdata now).1).total_interactions =
      r.total_interactions + 1 ∧
    ((interact_with_incarra r ty g cdata now).1).owner = r.owner ∧
    ((interact_with_incarra r ty g cdata now).1).carv_verified =
      r.carv_verified ∧
    r.reputation ≤ ((interact_with_incarra r ty g cdata now).1).reputation ∧
    r.reputation_score ≤
      ((interact_with_incarra r ty g cdata now).1).reputation_score ∧
    ((interact_with_incarra r ty g cdata now).1).research_projects +
        ((interact_with_incarra r ty g cdata now).1).data_sources_connected +
        ((interact_with_incarra r ty g cdata now).1).ai_conversations =
      r.research_projects + r.data_sources_connected + r.ai_conversations +
        1 := by
  cases ty <;> simp only [interact_with_incarra] <;> split_ifs <;> simp <;>
    omega

theorem interact_levelInv (r : IncarraAgent) (ty : InteractionType) (g : Nat)
    (cdata : String) (now : Int) (h : r.level = r.experience / 100 + 1) :
    ((interact_with_incarra r ty g cdata now).1).level =
      ((interact_with_incarra r ty g cdata now).1).experience / 100 + 1 := by
  have hdiv : r.experience / 100 ≤ (r.experience + g) / 100 :=
    Nat.div_le_div_right (Nat.le_add_right _ _)
  cases ty <;> simp only [interact_with_incarra] <;> split_ifs <;>
    simp_all <;> omega

theorem applyOp_preserves (o : Op) (r : IncarraAgent) :
    r.reputation ≤ ((applyOp o r).2).reputation ∧
    r.reputation_score ≤ ((applyOp o r).2).reputation_score ∧
    (r.carv_verified = true → ((applyOp o r).2).carv_verified = true) ∧
    ((applyOp o r).2).owner = r.owner ∧
    (o.isInteract = false →
      ((applyOp o r).2).level = r.level ∧
      ((applyOp o r).2).experience = r.experience ∧
      ((applyOp o r).2).total_interactions = r.total_interactions ∧
      ((applyOp o r).2).research_projects = r.research_projects ∧
      ((applyOp o r).2).data_sources_connected = r.data_sources_connected ∧
      ((applyOp o r).2).ai_conversations = r.ai_conversations) := by
  cases o
  case interact ty g cdata now =>
    have h := interact_fields r ty g cdata now
    refine ⟨h.2.2.2.2.1, h.2.2.2.2.2.1, fun hv => ?_, h.2.2.1, fun hfalse => ?_⟩
    · rw [show ((applyOp (Op.interact ty g cdata now) r).2) =
        (interact_with_incarra r ty g cdata now).1 from rfl, h.2.2.2.1, hv]
    · exact absurd hfalse (by simp [Op.isInteract])
  all_goals
    simp only [applyOp, verify_carv_id, add_credential, add_achievement,
      add_knowledge_area, update_personality, deactivate_incarra,
      Op.isInteract] <;>
    first
      | (split_ifs <;> simp)
      | simp

theorem create_ok_inv (owner : Nat)
    (agent_name personality carv_id verification_signature : String)
    (now : Int) (r : IncarraAgent)
    (h : create_incarra_agent owner agent_name personality carv_id
      verification_signature now = Except.ok r) :
    r.level = 1 ∧ r.experience = 0 ∧ r.reputation = 0 ∧
    r.reputation_score = 0 ∧ r.total_interactions = 0 ∧
    r.research_projects = 0 ∧ r.data_sources_connected = 0 ∧
    r.ai_conversations = 0 ∧ r.carv_verified = false ∧ r.owner = owner ∧
    r.credentials = [] ∧ r.knowledge_areas = [] := by
  rw [create_incarra_agent] at h
  split at h
  · exact absurd h (by simp)
  · injection h with h
    subst h
    exact ⟨rfl, rfl, rfl, rfl, rfl, rfl, rfl, rfl, rfl, rfl, rfl, rfl⟩

theorem da_step (q : IncarraAgent) (cdata : String) (now : Int) (e rep : Nat)
    (he : q.experience = e) (hl : q.level = 1) (hr : q.reputation = rep)
    (hv : q.carv_verified = false) (hlt : e + 20 < 100) :
    ((interact_with_incarra q InteractionType.DataAnalysis 20 cdata
        now).1).experience = e + 20 ∧
    ((interact_with_incarra q InteractionType.DataAnalysis 20 cdata
        now).1).level = 1 ∧
    ((interact_with_incarra q InteractionType.DataAnalysis 20 cdata
        now).1).reputation = rep + 5 ∧
    ((interact_with_incarra q InteractionType.DataAnalysis 20 cdata
        now).1).carv_verified = false ∧
    (interact_with_incarra q InteractionType.DataAnalysis 20 cdata
        now).2 = false := by
  have h0 : (e + 20) / 100 = 0 := Nat.div_eq_of_lt hlt
  simp [interact_with_incarra, he, hl, hr, hv, h0]

theorem da_step_up (q : IncarraAgent) (cdata : String) (now : Int) (rep : Nat)
    (he : q.experience = 80) (hl : q.level = 1) (hr : q.reputation = rep)
    (hv : q.carv_verified = false) :
    ((interact_with_incarra q InteractionType.DataAnalysis 20 cdata
        now).1).experience = 100 ∧
    ((interact_with_incarra q InteractionType.DataAnalysis 20 cdata
        now).1).level = 2 ∧
    ((interact_with_incarra q InteractionType.DataAnalysis 20 cdata
        now).1).reputation = rep + 5 ∧
    (interact_with_incarra q InteractionType.DataAnalysis 20 cdata
        now).2 = true := by
  simp [interact_with_incarra, he, hl, hr, hv]

theorem step_levelInv (o : Op) (r : IncarraAgent)
    (h : r.level = r.experience / 100 + 1) :
    ((applyOp o r).2).level = ((applyOp o r).2).experience / 100 + 1 := by
  by_cases hio : o.isInteract = false
  · have h5 := (applyOp_preserves o r).2.2.2.2 hio
    rw [h5.1, h5.2.1]
    exact h
  · cases o <;> simp [Op.isInteract] at hio
    next ty g cdata now =>
      exact interact_levelInv r ty g cdata now h

theorem reachable_levelInv (r : IncarraAgent) (h : Reachable r) :
    r.level = r.experience / 100 + 1 := by
  induction h with
  | created owner an p cid sig now r h =>
    have hc := create_ok_inv owner an p cid sig now r h
    rw [hc.1, hc.2.1]
  | stepped r o r' hr hstep ih =>
    have hsnd : (applyOp o r).2 = r' := congrArg Prod.snd hstep
    rw [← hsnd]
    exact step_levelInv o r ih

/-- C1: every reachable record satisfies `level = experience / 100 + 1`, and
the interaction instruction is the only one that can change `level` after
creation. -/
theorem levelInvariant :
    (∀ r : IncarraAgent, Reachable r → r.level = r.experience / 100 + 1) ∧
    (∀ (o : Op) (r : IncarraAgent), o.isInteract = false →
      ((applyOp o r).2).level = r.level) :=
  ⟨reachable_levelInv,
   fun o r ho => ((applyOp_preserves o r).2.2.2.2 ho).1⟩

/-- C1 witness: the fresh record is reachable and satisfies the invariant;
`deactivate_incarra` leaves `level` unchanged. -/
theorem levelInvariant_witness :
    freshRecord.level = freshRecord.experience / 100 + 1 ∧
    ((applyOp Op.deactivate freshRecord).2).level = freshRecord.level :=
  ⟨levelInvariant.1 freshRecord
      (Reachable.created 0 "nova" "atlas" "0xabc" "sig" 0 freshRecord
        (by rfl)),
   levelInvariant.2 Op.deactivate freshRecord rfl⟩

theorem reachable_counterSum (r : IncarraAgent) (h : Reachable r) :
    r.research_projects + r.data_sources_connected + r.ai_conversations =
      r.total_interactions := by
  induction h with
  | created owner an p cid sig now r h =>
    have hc := create_ok_inv owner an p cid sig now r h
    rw [hc.2.2.2.2.1, hc.2.2.2.2.2.1, hc.2.2.2.2.2.2.1, hc.2.2.2.2.2.2.2.1]
  | stepped r o r' hr hstep ih =>
    have hsnd : (applyOp o r).2 = r' := congrArg Prod.snd hstep
    rw [← hsnd]
    by_cases hio : o.isInteract = false
    · have h5 := (applyOp_preserves o r).2.2.2.2 hio
      rw [h5.2.2.1, h5.2.2.2.1, h5.2.2.2.2.1, h5.2.2.2.2.2]
      exact ih
    · cases o <;> simp [Op.isInteract] at hio
      next ty g cdata now =>
        have hf := interact_fields r ty g cdata now
        simp only [applyOp]
        omega

/-- C2: on every reachable record the three category counters sum to
`total_interactions`; each interaction call adds 1 to `total_interactions`
and to exactly one category counter — ResearchQuery and ProblemSolving to
`research_projects`, DataAnalysis to `data_sources_connected`, Conversation
to `ai_conversations`. -/
theorem interactionAccounting :
    (∀ r : IncarraAgent, Reachable r →
      r.research_projects + r.data_sources_connected + r.ai_conversations =
        r.total_interactions) ∧
    (∀ (r : IncarraAgent) (ty : InteractionType) (g : Nat) (cdata : String)
        (now : Int),
      ((interact_with_incarra r ty g cdata now).1).total_interactions =
        r.total_interactions + 1 ∧
      (ty = InteractionType.ResearchQuery ∨
          ty = InteractionType.ProblemSolving →
        ((interact_with_incarra r ty g cdata now).1).research_projects =
          r.research_projects + 1 ∧
        ((interact_with_incarra r ty g cdata now).1).data_sources_connected =
          r.data_sources_connected ∧
        ((interact_with_incarra r ty g cdata now).1).ai_conversations =
          r.ai_conversations) ∧
      (ty = InteractionType.DataAnalysis →
        ((interact_with_incarra r ty g cdata now).1).data_sources_connected =
          r.data_sources_connected + 1 ∧
        ((interact_with_incarra r ty g cdata now).1).research_projects =
          r.research_projects ∧
        ((interact_with_incarra r ty g cdata now).1).ai_conversations =
          r.ai_conversations) ∧
      (ty = InteractionType.Conversation →
        ((interact_with_incarra r ty g cdata now).1).ai_conversations =
          r.ai_conversations + 1 ∧
        ((interact_with_incarra r ty g cdata now).1).research_projects =
          r.research_projects ∧
        ((interact_with_incarra r ty g cdata now).1).data_sources_connected =
          r.data_sources_connected)) := by
  refine ⟨reachable_counterSum, fun r ty g cdata now => ?_⟩
  cases ty <;> simp only [interact_with_incarra] <;> split_ifs <;> simp

/-- C2 witness: the fresh record is reachable with counter sum 0 = 0, and a
concrete DataAnalysis call adds 1 to `total_interactions` and to
`data_sources_connected` only. -/
theorem interactionAccounting_witness :
    freshRecord.research_projects + freshRecord.data_sources_connected +
        freshRecord.ai_conversations = freshRecord.total_interactions ∧
    ((interact_with_incarra freshRecord InteractionType.DataAnalysis 20 "c"
        0).1).total_interactions = freshRecord.total_interactions + 1 ∧
    ((interact_with_incarra freshRecord InteractionType.DataAnalysis 20 "c"
        0).1).data_sources_connected =
      freshRecord.data_sources_connected + 1 :=
  ⟨interactionAccounting.1 freshRecord
      (Reachable.created 0 "nova" "atlas" "0xabc" "sig" 0 freshRecord
        (by rfl)),
   (interactionAccounting.2 freshRecord InteractionType.DataAnalysis 20 "c"
      0).1,
   ((interactionAccounting.2 freshRecord InteractionType.DataAnalysis 20 "c"
      0).2.2.1 rfl).1⟩

/-- C8: whenever an instruction returns an error, the record it leaves
behind is exactly the record it was given — no field is partially
mutated. -/
theorem errorAtomicity (o : Op) (r : IncarraAgent) (e : ErrorCode)
    (h : (applyOp o r).1 = Except.error e) : (applyOp o r).2 = r := by
  cases o <;>
    simp only [applyOp, verify_carv_id, add_credential, add_achievement,
      add_knowledge_area, update_personality, deactivate_incarra] at h ⊢ <;>
    first
      | (split_ifs at h ⊢ <;> simp_all)
      | simp_all

/-- C8 witness: a too-short verification proof errors and leaves the fresh
record untouched. -/
theorem errorAtomicity_witness :
    (applyOp (Op.verifyCarvId "short") freshRecord).1 =
      Except.error ErrorCode.InvalidVerificationProof ∧
    (applyOp (Op.verifyCarvId "short") freshRecord).2 = freshRecord :=
  ⟨by rfl,
   errorAtomicity (Op.verifyCarvId "short") freshRecord
     ErrorCode.InvalidVerificationProof (by rfl)⟩

theorem applyOps_cons (o : Op) (ops : List Op) (r : IncarraAgent) :
    applyOps (o :: ops) r = applyOps ops ((applyOp o r).2) := rfl

/-- C9: across every sequence of instructions, `reputation` and
`reputation_score` never decrease, `carv_verified` never drops back to
false, and `owner` never changes. -/
theorem monotoneInvariants (ops : List Op) (r : IncarraAgent) :
    r.reputation ≤ (applyOps ops r).reputation ∧
    r.reputation_score ≤ (applyOps ops r).reputation_score ∧
    (r.carv_verified = true → (applyOps ops r).carv_verified = true) ∧
    (applyOps ops r).owner = r.owner := by
  induction ops generalizing r with
  | nil => exact ⟨le_refl _, le_refl _, fun h => h, rfl⟩
  | cons o rest ih =>
    have h1 := applyOp_preserves o r
    have h2 := ih ((applyOp o r).2)
    rw [applyOps_cons]
    exact ⟨le_trans h1.1 h2.1, le_trans h1.2.1 h2.2.1,
      fun hv => h2.2.2.1 (h1.2.2.1 hv), by rw [h2.2.2.2, h1.2.2.2.1]⟩

/-- C9 witness: deactivation after verification keeps reputation,
verification status and owner intact. -/
theorem monotoneInvariants_witness :
    verifiedRecord.reputation ≤
      (applyOps [Op.deactivate] verifiedRecord).reputation ∧
    (applyOps [Op.deactivate] verifiedRecord).carv_verified = true ∧
    (applyOps [Op.deactivate] verifiedRecord).owner = verifiedRecord.owner :=
  ⟨(monotoneInvariants [Op.deactivate] verifiedRecord).1,
   (monotoneInvariants [Op.deactivate] verifiedRecord).2.2.1 rfl,
   (monotoneInvariants [Op.deactivate] verifiedRecord).2.2.2⟩

/-- C7: from a freshly created record (experience 0, level 1, reputation 0,
unverified), five DataAnalysis interactions of 20 experience each end at
experience 100 and level 2, the level-up event fires only on the fifth call,
and reputation grows by exactly 25 in total (5 per call while unverified). -/
theorem fiveDataAnalysisInteractions (r : IncarraAgent) (cdata : String)
    (now : Int) (hexp : r.experience = 0) (hlvl : r.level = 1)
    (hrep : r.reputation = 0) (hver : r.carv_verified = false) :
    (applyOps (List.replicate 5
        (Op.interact InteractionType.DataAnalysis 20 cdata now))
        r).experience = 100 ∧
    (applyOps (List.replicate 5
        (Op.interact InteractionType.DataAnalysis 20 cdata now))
        r).level = 2 ∧
    (applyOps (List.replicate 5
        (Op.interact InteractionType.DataAnalysis 20 cdata now))
        r).reputation = 25 ∧
    (∀ k : Nat, k < 4 →
      (interact_with_incarra
        (applyOps (List.replicate k
          (Op.interact InteractionType.DataAnalysis 20 cdata now)) r)
        InteractionType.DataAnalysis 20 cdata now).2 = false) ∧
    (interact_with_incarra
      (applyOps (List.replicate 4
        (Op.interact InteractionType.DataAnalysis 20 cdata now)) r)
      InteractionType.DataAnalysis 20 cdata now).2 = true := by
  have h1 := da_step r cdata now 0 0 hexp hlvl hrep hver (by omega)
  have h2 := da_step _ cdata now (0 + 20) (0 + 5) h1.1 h1.2.1 h1.2.2.1
    h1.2.2.2.1 (by omega)
  have h3 := da_step _ cdata now (0 + 20 + 20) (0 + 5 + 5) h2.1 h2.2.1
    h2.2.2.1 h2.2.2.2.1 (by omega)
  have h4 := da_step _ cdata now (0 + 20 + 20 + 20) (0 + 5 + 5 + 5) h3.1
    h3.2.1 h3.2.2.1 h3.2.2.2.1 (by omega)
  have h5 := da_step_up _ cdata now (0 + 5 + 5 + 5 + 5)
    (by rw [h4.1]) h4.2.1 h4.2.2.1 h4.2.2.2.1
  refine ⟨?_, ?_, ?_, ?_, ?_⟩
  · simp only [List.replicate, applyOps, List.foldl, applyOp]
    rw [h5.1]
  · simp only [List.replicate, applyOps, List.foldl, applyOp]
    rw [h5.2.1]
  · simp only [List.replicate, applyOps, List.foldl, applyOp]
    rw [h5.2.2.1]
  · intro k hk
    interval_cases k <;>
      simp only [List.replicate, applyOps, List.foldl, applyOp]
    · exact h1.2.2.2.2
    · exact h2.2.2.2.2
    · exact h3.2.2.2.2
    · exact h4.2.2.2.2
  · simp only [List.replicate, applyOps, List.foldl, applyOp]
    exact h5.2.2.2

/-- C7 witness: the scenario run on the concrete fresh record. -/
theorem fiveDataAnalysisInteractions_witness :
    (applyOps (List.replicate 5
        (Op.interact InteractionType.DataAnalysis 20 "c" 0))
        freshRecord).experience = 100 ∧
    (applyOps (List.replicate 5
        (Op.interact InteractionType.DataAnalysis 20 "c" 0))
        freshRecord).level = 2 ∧
    (applyOps (List.replicate 5
        (Op.interact InteractionType.DataAnalysis 20 "c" 0))
        freshRecord).reputation = 25 ∧
    (interact_with_incarra
      (applyOps (List.replicate 4
        (Op.interact InteractionType.DataAnalysis 20 "c" 0)) freshRecord)
      InteractionType.DataAnalysis 20 "c" 0).2 = true :=
  ⟨(fiveDataAnalysisInteractions freshRecord "c" 0 rfl rfl rfl rfl).1,
   (fiveDataAnalysisInteractions freshRecord "c" 0 rfl rfl rfl rfl).2.1,
   (fiveDataAnalysisInteractions freshRecord "c" 0 rfl rfl rfl rfl).2.2.1,
   (fiveDataAnalysisInteractions freshRecord "c" 0 rfl rfl rfl rfl).2.2.2.2⟩
